import Mathlib

/-!
Shallow embedding of the notebook
`MLOps_Professional/lab9/sample/Part II - Uploading and Sharing Models on
Hugging Face Hub with Intel Optimizations.ipynb`.

The notebook is straight-line glue code over external libraries:

  notebook_login()
  checkpoint_path = r"./results/checkpoint-2000"
  model = AutoModelForSequenceClassification.from_pretrained(checkpoint_path)
  tokenizer = AutoTokenizer.from_pretrained("distilbert-base-uncased")
  model_name_on_hub = "desired-model-name"
  model.save_pretrained(model_name_on_hub)
  tokenizer.save_pretrained(model_name_on_hub)
  model.push_to_hub(model_name_on_hub)
  tokenizer.push_to_hub(model_name_on_hub)
  model_card_content = """..."""
  model_card_filename = f"..."            -- model_name_on_hub + "/README.md"
  with open(model_card_filename, "w") as file: file.write(model_card_content)
  repo = Repository(model_name_on_hub, clone_from=model_name_on_hub)
  repo.push_to_hub(commit_message="Add model card")

The external calls are modelled by a `World`: each call either succeeds
(returning a value chosen by the world) or raises an error string chosen by
the world.  `run` executes the script: it performs the calls strictly in
source order, records an event for every call that completes, and, the
moment a call raises, stops and returns that error unchanged (the script
has no try/except, so a raised exception aborts the rest of the cells).
-/

/-- An opaque trained sequence-classification model: the script never looks
inside it, so only its serialized weight blob is modelled. -/
structure AutoModelForSequenceClassification where
  weights : String
deriving DecidableEq

/-- An opaque tokenizer: the script never looks inside it. -/
structure AutoTokenizer where
  config : String
deriving DecidableEq

/-- The external environment: results of every third-party call the script
makes.  `pathExists` and `storedModel` model the local filesystem seen by
`from_pretrained`; every other field injects success or an arbitrary raised
error for one call site. -/
structure World where
  pathExists : String → Bool
  storedModel : String → AutoModelForSequenceClassification
  tokenizerLoad : String → Except String AutoTokenizer
  loginResult : Except String Unit
  saveModelResult : String → AutoModelForSequenceClassification → Except String Unit
  saveTokenizerResult : String → AutoTokenizer → Except String Unit
  pushModelResult : String → AutoModelForSequenceClassification → Except String Unit
  pushTokenizerResult : String → AutoTokenizer → Except String Unit
  writeFileResult : String → String → Except String Unit
  cloneResult : String → String → Except String Unit
  repoPushResult : String → Except String Unit

/-- `notebook_login()`: interactive login against the hub. -/
def notebook_login (w : World) : Except String Unit :=
  w.loginResult

/-- `AutoModelForSequenceClassification.from_pretrained(path)`: loads the
checkpoint stored at `path`; the external library raises when the path does
not exist on the local filesystem. -/
def AutoModelForSequenceClassification.from_pretrained (w : World) (path : String) :
    Except String AutoModelForSequenceClassification :=
  if w.pathExists path then Except.ok (w.storedModel path)
  else Except.error ("checkpoint path does not exist: " ++ path)

/-- `AutoTokenizer.from_pretrained(identifier)`: loads a tokenizer from a hub
identifier; success and value are determined by the external world. -/
def AutoTokenizer.from_pretrained (w : World) (ident : String) :
    Except String AutoTokenizer :=
  w.tokenizerLoad ident

/-- `checkpoint_path = r"./results/checkpoint-2000"`. -/
def checkpoint_path : String := "./results/checkpoint-2000"

/-- `model_name_on_hub = "desired-model-name"`. -/
def model_name_on_hub : String := "desired-model-name"

/-- The lines of the `model_card_content` triple-quoted string, transcribed
verbatim from the notebook (the string opens with a newline, ends with a
blank line, and the `## Hardware ` heading carries a trailing space). -/
def model_card_lines : List String :=
  ["",
   "# Model Card for My Fine-Tuned Model",
   "",
   "## Model Description",
   "- **Purpose**: [Describe the purpose of your model. What task does it perform?]",
   "- **Model architecture**: [Specify the architecture, e.g., BERT, GPT-2, etc.]",
   "- **Training data**: [Briefly describe the dataset used for training. Include any data cleaning or preprocessing steps.]",
   "",
   "## Intended Use",
   "- **Intended users**: [Who are the intended users of the model?]",
   "- **Use cases**: [Describe potential use cases for the model.]",
   "",
   "## Limitations",
   "- **Known limitations**: [Mention any known limitations of the model.]",
   "",
   "## Hardware ",
   "- **Training Platform**: [Describe details about the systems and platform used to train the model.]",
   "",
   "## Software Optimizations",
   "- **Known Optimizations**: [Describe details about any optimizations used during training.]",
   "",
   "## Ethical Considerations",
   "- **Ethical concerns**: [Discuss any ethical concerns related to the use of your model.]",
   "",
   "## More Information",
   "- [Include any additional information, links, or references.]",
   "",
   ""]

/-- `model_card_content`: the fixed template string. -/
def model_card_content : String :=
  String.intercalate "\n" model_card_lines

/-- `model_card_filename = f"{...}/README.md"` built from `model_name_on_hub`. -/
def model_card_filename : String :=
  model_name_on_hub ++ "/README.md"

/-- One completed external call of the script, together with its arguments. -/
inductive Event where
  | login : Event
  | loadModel : String → Event
  | loadTokenizer : String → Event
  | saveModel : String → AutoModelForSequenceClassification → Event
  | saveTokenizer : String → AutoTokenizer → Event
  | pushModel : String → AutoModelForSequenceClassification → Event
  | pushTokenizer : String → AutoTokenizer → Event
  | writeFile : String → String → Event
  | repoClone : String → String → Event
  | repoPush : String → String → Event
deriving DecidableEq

/-- Runs the notebook cells in order against the world `w`.  Returns the
events of the calls that completed, in execution order, and `some e` when a
call raised `e` (aborting everything after it), `none` when the whole script
ran to completion. -/
def run (w : World) : List Event × Option String :=
  match notebook_login w with
  | Except.error e => ([], some e)
  | Except.ok _ =>
    match AutoModelForSequenceClassification.from_pretrained w checkpoint_path with
    | Except.error e => ([Event.login], some e)
    | Except.ok model =>
      match AutoTokenizer.from_pretrained w "distilbert-base-uncased" with
      | Except.error e =>
          ([Event.login, Event.loadModel checkpoint_path], some e)
      | Except.ok tokenizer =>
        match w.saveModelResult model_name_on_hub model with
        | Except.error e =>
            ([Event.login, Event.loadModel checkpoint_path,
              Event.loadTokenizer "distilbert-base-uncased"], some e)
        | Except.ok _ =>
          match w.saveTokenizerResult model_name_on_hub tokenizer with
          | Except.error e =>
              ([Event.login, Event.loadModel checkpoint_path,
                Event.loadTokenizer "distilbert-base-uncased",
                Event.saveModel model_name_on_hub model], some e)
          | Except.ok _ =>
            match w.pushModelResult model_name_on_hub model with
            | Except.error e =>
                ([Event.login, Event.loadModel checkpoint_path,
                  Event.loadTokenizer "distilbert-base-uncased",
                  Event.saveModel model_name_on_hub model,
                  Event.saveTokenizer model_name_on_hub tokenizer], some e)
            | Except.ok _ =>
              match w.pushTokenizerResult model_name_on_hub tokenizer with
              | Except.error e =>
                  ([Event.login, Event.loadModel checkpoint_path,
                    Event.loadTokenizer "distilbert-base-uncased",
                    Event.saveModel model_name_on_hub model,
                    Event.saveTokenizer model_name_on_hub tokenizer,
                    Event.pushModel model_name_on_hub model], some e)
              | Except.ok _ =>
                match w.writeFileResult model_card_filename model_card_content with
                | Except.error e =>
                    ([Event.login, Event.loadModel checkpoint_path,
                      Event.loadTokenizer "distilbert-base-uncased",
                      Event.saveModel model_name_on_hub model,
                      Event.saveTokenizer model_name_on_hub tokenizer,
                      Event.pushModel model_name_on_hub model,
                      Event.pushTokenizer model_name_on_hub tokenizer], some e)
                | Except.ok _ =>
                  match w.cloneResult model_name_on_hub model_name_on_hub with
                  | Except.error e =>
                      ([Event.login, Event.loadModel checkpoint_path,
                        Event.loadTokenizer "distilbert-base-uncased",
                        Event.saveModel model_name_on_hub model,
                        Event.saveTokenizer model_name_on_hub tokenizer,
                        Event.pushModel model_name_on_hub model,
                        Event.pushTokenizer model_name_on_hub tokenizer,
                        Event.writeFile model_card_filename model_card_content], some e)
                  | Except.ok _ =>
                    match w.repoPushResult model_name_on_hub with
                    | Except.error e =>
                        ([Event.login, Event.loadModel checkpoint_path,
                          Event.loadTokenizer "distilbert-base-uncased",
                          Event.saveModel model_name_on_hub model,
                          Event.saveTokenizer model_name_on_hub tokenizer,
                          Event.pushModel model_name_on_hub model,
                          Event.pushTokenizer model_name_on_hub tokenizer,
                          Event.writeFile model_card_filename model_card_content,
                          Event.repoClone model_name_on_hub model_name_on_hub], some e)
                    | Except.ok _ =>
                        ([Event.login, Event.loadModel checkpoint_path,
                          Event.loadTokenizer "distilbert-base-uncased",
                          Event.saveModel model_name_on_hub model,
                          Event.saveTokenizer model_name_on_hub tokenizer,
                          Event.pushModel model_name_on_hub model,
                          Event.pushTokenizer model_name_on_hub tokenizer,
                          Event.writeFile model_card_filename model_card_content,
                          Event.repoClone model_name_on_hub model_name_on_hub,
                          Event.repoPush model_name_on_hub "Add model card"], none)

/-- The full event sequence of a run in which every call succeeds, with
`tok` the tokenizer returned by `AutoTokenizer.from_pretrained`. -/
def fullTrace (w : World) (tok : AutoTokenizer) : List Event :=
  [Event.login,
   Event.loadModel checkpoint_path,
   Event.loadTokenizer "distilbert-base-uncased",
   Event.saveModel model_name_on_hub (w.storedModel checkpoint_path),
   Event.saveTokenizer model_name_on_hub tok,
   Event.pushModel model_name_on_hub (w.storedModel checkpoint_path),
   Event.pushTokenizer model_name_on_hub tok,
   Event.writeFile model_card_filename model_card_content,
   Event.repoClone model_name_on_hub model_name_on_hub,
   Event.repoPush model_name_on_hub "Add model card"]

/-- A world in which every external call succeeds. -/
def okWorld : World where
  pathExists := fun _ => true
  storedModel := fun p => { weights := "weights at " ++ p }
  tokenizerLoad := fun ident => Except.ok { config := ident }
  loginResult := Except.ok ()
  saveModelResult := fun _ _ => Except.ok ()
  saveTokenizerResult := fun _ _ => Except.ok ()
  pushModelResult := fun _ _ => Except.ok ()
  pushTokenizerResult := fun _ _ => Except.ok ()
  writeFileResult := fun _ _ => Except.ok ()
  cloneResult := fun _ _ => Except.ok ()
  repoPushResult := fun _ => Except.ok ()

/-- A world in which the checkpoint directory is missing and everything
else would succeed. -/
def missingCheckpointWorld : World :=
  { okWorld with pathExists := fun _ => false }

/-- The call site an event belongs to, with the arguments erased. -/
inductive EKind where
  | login | loadModel | loadTokenizer | saveModel | saveTokenizer
  | pushModel | pushTokenizer | writeFile | repoClone | repoPush
deriving DecidableEq

/-- The kind of an event. -/
def Event.kind : Event → EKind
  | Event.login => EKind.login
  | Event.loadModel _ => EKind.loadModel
  | Event.loadTokenizer _ => EKind.loadTokenizer
  | Event.saveModel _ _ => EKind.saveModel
  | Event.saveTokenizer _ _ => EKind.saveTokenizer
  | Event.pushModel _ _ => EKind.pushModel
  | Event.pushTokenizer _ _ => EKind.pushTokenizer
  | Event.writeFile _ _ => EKind.writeFile
  | Event.repoClone _ _ => EKind.repoClone
  | Event.repoPush _ _ => EKind.repoPush

/-- How many events of kind `k` a trace contains. -/
def countKind : List Event → EKind → Nat
  | [], _ => 0
  | e :: tr, k => (if Event.kind e = k then 1 else 0) + countKind tr k

/-- Position of the first event of kind `k` in a trace (the trace length
when there is none). -/
def idxKind : List Event → EKind → Nat
  | [], _ => 0
  | e :: tr, k => if Event.kind e = k then 0 else idxKind tr k + 1

/-- Whether an event is one of the three upload calls (model push, tokenizer
push, model-card repository push). -/
def isUpload : Event → Bool
  | Event.pushModel _ _ => true
  | Event.pushTokenizer _ _ => true
  | Event.repoPush _ _ => true
  | _ => false

/-- The upload calls of a trace, in order. -/
def uploadsOf (tr : List Event) : List Event :=
  tr.filter isUpload

/-- The contents written to the model-card file during a trace, in order. -/
def readmeWrites (tr : List Event) : List String :=
  tr.filterMap fun e =>
    match e with
    | Event.writeFile p c => if p = model_card_filename then some c else none
    | _ => none

/-- A local filesystem: an association of paths to file contents. -/
def fsGet : List (String × String) → String → Option String
  | [], _ => none
  | kv :: l, p => if kv.1 = p then some kv.2 else fsGet l p

/-- Writing a file with `open(path, "w")`: the path now holds exactly the
new content (an existing file at the path is truncated and replaced) and
every other path is untouched. -/
def fsSet : List (String × String) → String → String → List (String × String)
  | [], p, c => [(p, c)]
  | kv :: l, p, c => if kv.1 = p then (p, c) :: fsSet l p c else kv :: fsSet l p c

/-- The effect of one completed call on the local filesystem.  The file
names written by the external `save_pretrained` serializers stand for the
weight and tokenizer files they produce inside the target directory. -/
def fsApply (fs : List (String × String)) : Event → List (String × String)
  | Event.saveModel dir m => fsSet fs (dir ++ "/pytorch_model.bin") m.weights
  | Event.saveTokenizer dir t => fsSet fs (dir ++ "/tokenizer_config.json") t.config
  | Event.writeFile p c => fsSet fs p c
  | _ => fs

/-- The local filesystem after a run, starting from an empty directory. -/
def finalFS (w : World) : List (String × String) :=
  ((run w).1).foldl fsApply []

/-- The markdown section headers of a document given as its list of lines:
the text after `## ` on every line that starts with `## `. -/
def sectionHeaders (ls : List String) : List String :=
  (ls.filter fun l => l.data.take 3 == ['#', '#', ' ']).map
    fun l => String.mk (l.data.drop 3)

theorem from_pretrained_ok (w : World) (p : String)
    (m : AutoModelForSequenceClassification)
    (h : AutoModelForSequenceClassification.from_pretrained w p = Except.ok m) :
    m = w.storedModel p ∧ w.pathExists p = true := by
  unfold AutoModelForSequenceClassification.from_pretrained at h
  by_cases hp : w.pathExists p = true
  · simp [hp] at h
    exact ⟨h.symm, hp⟩
  · simp [hp] at h

theorem fsGet_fsSet_same (fs : List (String × String)) (p c : String) :
    fsGet (fsSet fs p c) p = some c := by
  induction fs with
  | nil => simp [fsSet, fsGet]
  | cons kv l ih =>
      by_cases hk : kv.1 = p
      · simp [fsSet, fsGet, hk]
      · simp [fsSet, fsGet, hk, ih]

theorem fsGet_fsSet_other (fs : List (String × String)) (p c q : String)
    (hq : q ≠ p) : fsGet (fsSet fs p c) q = fsGet fs q := by
  have hpq : ¬p = q := fun h => hq h.symm
  induction fs with
  | nil => simp [fsSet, fsGet, hpq]
  | cons kv l ih =>
      by_cases hk : kv.1 = p
      · have hkq : ¬kv.1 = q := by rw [hk]; exact hpq
        simp [fsSet, fsGet, hk, hpq, hkq, hq, ih]
      · by_cases hkq : kv.1 = q
        · simp [fsSet, fsGet, hk, hkq, hq, hpq]
        · simp [fsSet, fsGet, hk, hkq, ih]

theorem sanity_run_okWorld : (run okWorld).2 = none := rfl

theorem sanity_run_missing : run missingCheckpointWorld =
    ([Event.login], some ("checkpoint path does not exist: " ++ checkpoint_path)) := rfl

theorem run_char (w : World) :
    (∃ e, w.loginResult = Except.error e ∧ run w = ([], some e)) ∨
    (w.loginResult = Except.ok () ∧ w.pathExists checkpoint_path = false ∧
      run w = ([Event.login],
        some ("checkpoint path does not exist: " ++ checkpoint_path))) ∨
    (∃ e, w.loginResult = Except.ok () ∧ w.pathExists checkpoint_path = true ∧
      w.tokenizerLoad "distilbert-base-uncased" = Except.error e ∧
      run w = ([Event.login, Event.loadModel checkpoint_path], some e)) ∨
    (∃ tok e, w.loginResult = Except.ok () ∧ w.pathExists checkpoint_path = true ∧
      w.tokenizerLoad "distilbert-base-uncased" = Except.ok tok ∧
      w.saveModelResult model_name_on_hub (w.storedModel checkpoint_path) = Except.error e ∧
      run w = ([Event.login, Event.loadModel checkpoint_path,
        Event.loadTokenizer "distilbert-base-uncased"], some e)) ∨
    (∃ tok e, w.loginResult = Except.ok () ∧ w.pathExists checkpoint_path = true ∧
      w.tokenizerLoad "distilbert-base-uncased" = Except.ok tok ∧
      w.saveTokenizerResult model_name_on_hub tok = Except.error e ∧
      run w = ([Event.login, Event.loadModel checkpoint_path,
        Event.loadTokenizer "distilbert-base-uncased",
        Event.saveModel model_name_on_hub (w.storedModel checkpoint_path)], some e)) ∨
    (∃ tok e, w.loginResult = Except.ok () ∧ w.pathExists checkpoint_path = true ∧
      w.tokenizerLoad "distilbert-base-uncased" = Except.ok tok ∧
      w.pushModelResult model_name_on_hub (w.storedModel checkpoint_path) = Except.error e ∧
      run w = ([Event.login, Event.loadModel checkpoint_path,
        Event.loadTokenizer "distilbert-base-uncased",
        Event.saveModel model_name_on_hub (w.storedModel checkpoint_path),
        Event.saveTokenizer model_name_on_hub tok], some e)) ∨
    (∃ tok e, w.loginResult = Except.ok () ∧ w.pathExists checkpoint_path = true ∧
      w.tokenizerLoad "distilbert-base-uncased" = Except.ok tok ∧
      w.pushTokenizerResult model_name_on_hub tok = Except.error e ∧
      run w = ([Event.login, Event.loadModel checkpoint_path,
        Event.loadTokenizer "distilbert-base-uncased",
        Event.saveModel model_name_on_hub (w.storedModel checkpoint_path),
        Event.saveTokenizer model_name_on_hub tok,
        Event.pushModel model_name_on_hub (w.storedModel checkpoint_path)], some e)) ∨
    (∃ tok e, w.loginResult = Except.ok () ∧ w.pathExists checkpoint_path = true ∧
      w.tokenizerLoad "distilbert-base-uncased" = Except.ok tok ∧
      w.writeFileResult model_card_filename model_card_content = Except.error e ∧
      run w = ([Event.login, Event.loadModel checkpoint_path,
        Event.loadTokenizer "distilbert-base-uncased",
        Event.saveModel model_name_on_hub (w.storedModel checkpoint_path),
        Event.saveTokenizer model_name_on_hub tok,
        Event.pushModel model_name_on_hub (w.storedModel checkpoint_path),
        Event.pushTokenizer model_name_on_hub tok], some e)) ∨
    (∃ tok e, w.loginResult = Except.ok () ∧ w.pathExists checkpoint_path = true ∧
      w.tokenizerLoad "distilbert-base-uncased" = Except.ok tok ∧
      w.cloneResult model_name_on_hub model_name_on_hub = Except.error e ∧
      run w = ([Event.login, Event.loadModel checkpoint_path,
        Event.loadTokenizer "distilbert-base-uncased",
        Event.saveModel model_name_on_hub (w.storedModel checkpoint_path),
        Event.saveTokenizer model_name_on_hub tok,
        Event.pushModel model_name_on_hub (w.storedModel checkpoint_path),
        Event.pushTokenizer model_name_on_hub tok,
        Event.writeFile model_card_filename model_card_content], some e)) ∨
    (∃ tok e, w.loginResult = Except.ok () ∧ w.pathExists checkpoint_path = true ∧
      w.tokenizerLoad "distilbert-base-uncased" = Except.ok tok ∧
      w.repoPushResult model_name_on_hub = Except.error e ∧
      run w = ([Event.login, Event.loadModel checkpoint_path,
        Event.loadTokenizer "distilbert-base-uncased",
        Event.saveModel model_name_on_hub (w.storedModel checkpoint_path),
        Event.saveTokenizer model_name_on_hub tok,
        Event.pushModel model_name_on_hub (w.storedModel checkpoint_path),
        Event.pushTokenizer model_name_on_hub tok,
        Event.writeFile model_card_filename model_card_content,
        Event.repoClone model_name_on_hub model_name_on_hub], some e)) ∨
    (∃ tok, w.loginResult = Except.ok () ∧ w.pathExists checkpoint_path = true ∧
      w.tokenizerLoad "distilbert-base-uncased" = Except.ok tok ∧
      run w = (fullTrace w tok, none)) := by
  cases hL : w.loginResult with
  | error e => exact Or.inl ⟨e, rfl, by simp [run, notebook_login, hL]⟩
  | ok u =>
    cases u
    cases hP : w.pathExists checkpoint_path with
    | false =>
        refine Or.inr (Or.inl ⟨rfl, rfl, ?_⟩)
        simp [run, notebook_login, AutoModelForSequenceClassification.from_pretrained, hL, hP]
    | true =>
      cases hT : w.tokenizerLoad "distilbert-base-uncased" with
      | error e =>
          refine Or.inr (Or.inr (Or.inl ⟨e, rfl, rfl, rfl, ?_⟩))
          simp [run, notebook_login, AutoModelForSequenceClassification.from_pretrained,
            AutoTokenizer.from_pretrained, hL, hP, hT]
      | ok tok =>
        cases hSM : w.saveModelResult model_name_on_hub (w.storedModel checkpoint_path) with
        | error e =>
            refine Or.inr (Or.inr (Or.inr (Or.inl ⟨tok, e, rfl, rfl, rfl, rfl, ?_⟩)))
            simp [run, notebook_login, AutoModelForSequenceClassification.from_pretrained,
              AutoTokenizer.from_pretrained, hL, hP, hT, hSM]
        | ok v1 =>
          cases v1
          cases hST : w.saveTokenizerResult model_name_on_hub tok with
          | error e =>
              refine Or.inr (Or.inr (Or.inr (Or.inr (Or.inl ⟨tok, e, rfl, rfl, rfl, hST, ?_⟩))))
              simp [run, notebook_login, AutoModelForSequenceClassification.from_pretrained,
                AutoTokenizer.from_pretrained, hL, hP, hT, hSM, hST]
          | ok v2 =>
            cases v2
            cases hPM : w.pushModelResult model_name_on_hub (w.storedModel checkpoint_path) with
            | error e =>
                refine Or.inr (Or.inr (Or.inr (Or.inr (Or.inr (Or.inl ⟨tok, e, rfl, rfl, rfl, rfl, ?_⟩)))))
                simp [run, notebook_login, AutoModelForSequenceClassification.from_pretrained,
                  AutoTokenizer.from_pretrained, hL, hP, hT, hSM, hST, hPM]
            | ok v3 =>
              cases v3
              cases hPT : w.pushTokenizerResult model_name_on_hub tok with
              | error e =>
                  refine Or.inr (Or.inr (Or.inr (Or.inr (Or.inr (Or.inr (Or.inl ⟨tok, e, rfl, rfl, rfl, hPT, ?_⟩))))))
                  simp [run, notebook_login, AutoModelForSequenceClassification.from_pretrained,
                    AutoTokenizer.from_pretrained, hL, hP, hT, hSM, hST, hPM, hPT]
              | ok v4 =>
                cases v4
                cases hW : w.writeFileResult model_card_filename model_card_content with
                | error e =>
                    refine Or.inr (Or.inr (Or.inr (Or.inr (Or.inr (Or.inr (Or.inr (Or.inl ⟨tok, e, rfl, rfl, rfl, rfl, ?_⟩)))))))
                    simp [run, notebook_login, AutoModelForSequenceClassification.from_pretrained,
                      AutoTokenizer.from_pretrained, hL, hP, hT, hSM, hST, hPM, hPT, hW]
                | ok v5 =>
                  cases v5
                  cases hC : w.cloneResult model_name_on_hub model_name_on_hub with
                  | error e =>
                      refine Or.inr (Or.inr (Or.inr (Or.inr (Or.inr (Or.inr (Or.inr (Or.inr (Or.inl ⟨tok, e, rfl, rfl, rfl, rfl, ?_⟩))))))))
                      simp [run, notebook_login, AutoModelForSequenceClassification.from_pretrained,
                        AutoTokenizer.from_pretrained, hL, hP, hT, hSM, hST, hPM, hPT, hW, hC]
                  | ok v6 =>
                    cases v6
                    cases hRP : w.repoPushResult model_name_on_hub with
                    | error e =>
                        refine Or.inr (Or.inr (Or.inr (Or.inr (Or.inr (Or.inr (Or.inr (Or.inr (Or.inr (Or.inl ⟨tok, e, rfl, rfl, rfl, rfl, ?_⟩)))))))))
                        simp [run, notebook_login, AutoModelForSequenceClassification.from_pretrained,
                          AutoTokenizer.from_pretrained, hL, hP, hT, hSM, hST, hPM, hPT, hW, hC, hRP]
                    | ok v7 =>
                        cases v7
                        refine Or.inr (Or.inr (Or.inr (Or.inr (Or.inr (Or.inr (Or.inr (Or.inr (Or.inr (Or.inr ⟨tok, rfl, rfl, rfl, ?_⟩)))))))))
                        simp [run, notebook_login, AutoModelForSequenceClassification.from_pretrained,
                          AutoTokenizer.from_pretrained, fullTrace, hL, hP, hT, hSM, hST, hPM, hPT, hW, hC, hRP]

theorem run_none_eq (w : World) (h : (run w).2 = none) :
    ∃ tok, w.loginResult = Except.ok () ∧ w.pathExists checkpoint_path = true ∧
      w.tokenizerLoad "distilbert-base-uncased" = Except.ok tok ∧
      run w = (fullTrace w tok, none) := by
  rcases run_char w with ⟨e, _, hr⟩ | ⟨_, _, hr⟩ | ⟨e, _, _, _, hr⟩ |
    ⟨tok, e, _, _, _, _, hr⟩ | ⟨tok, e, _, _, _, _, hr⟩ | ⟨tok, e, _, _, _, _, hr⟩ |
    ⟨tok, e, _, _, _, _, hr⟩ | ⟨tok, e, _, _, _, _, hr⟩ | ⟨tok, e, _, _, _, _, hr⟩ |
    ⟨tok, e, _, _, _, _, hr⟩ | ⟨tok, h1, h2, h3, hr⟩ <;>
  first
    | exact ⟨tok, h1, h2, h3, hr⟩
    | (rw [hr] at h; simp at h)

theorem run_events_mem (w : World) (ev : Event) (he : ev ∈ (run w).1) :
    ∃ tok, ev ∈ fullTrace w tok := by
  rcases run_char w with ⟨e, _, hr⟩ | ⟨_, _, hr⟩ | ⟨e, _, _, _, hr⟩ |
    ⟨tok, e, _, _, _, _, hr⟩ | ⟨tok, e, _, _, _, _, hr⟩ | ⟨tok, e, _, _, _, _, hr⟩ |
    ⟨tok, e, _, _, _, _, hr⟩ | ⟨tok, e, _, _, _, _, hr⟩ | ⟨tok, e, _, _, _, _, hr⟩ |
    ⟨tok, e, _, _, _, _, hr⟩ | ⟨tok, _, _, _, hr⟩ <;>
  rw [hr] at he
  · exact absurd he (by simp)
  · refine ⟨⟨""⟩, ?_⟩
    simp [fullTrace] at he ⊢
    tauto
  · refine ⟨⟨""⟩, ?_⟩
    simp [fullTrace] at he ⊢
    tauto
  all_goals refine ⟨tok, ?_⟩
  all_goals simp [fullTrace] at he ⊢
  all_goals tauto

theorem finalFS_none (w : World) (tok : AutoTokenizer)
    (hr : run w = (fullTrace w tok, none)) :
    finalFS w = fsSet (fsSet (fsSet []
      (model_name_on_hub ++ "/pytorch_model.bin") (w.storedModel checkpoint_path).weights)
      (model_name_on_hub ++ "/tokenizer_config.json") tok.config)
      model_card_filename model_card_content := by
  simp [finalFS, hr, fullTrace, fsApply]

theorem readmeWrites_fullTrace (w : World) (tok : AutoTokenizer) :
    readmeWrites (fullTrace w tok) = [model_card_content] := by
  simp [readmeWrites, fullTrace]

theorem readmeWrites_const (w : World) (c : String)
    (hc : c ∈ readmeWrites (run w).1) : c = model_card_content := by
  unfold readmeWrites at hc
  rcases List.mem_filterMap.mp hc with ⟨ev, hev, hf⟩
  obtain ⟨tok, hmem⟩ := run_events_mem w ev hev
  cases ev <;> simp at hf
  case writeFile p c2 =>
    simp [fullTrace] at hmem
    exact hf.2 ▸ hmem.2

/-- C1: with checkpoint path "./results/checkpoint-2000" and chosen name
"desired-model-name", a completed run leaves the local directory
"desired-model-name" holding the saved model weights and tokenizer files and
the file "desired-model-name/README.md" with the template content, and issues
exactly three upload calls (model, tokenizer, model card), each under that
same name. -/
theorem C1_end_to_end_scenario (w : World) (h : (run w).2 = none) :
    checkpoint_path = "./results/checkpoint-2000" ∧
    model_name_on_hub = "desired-model-name" ∧
    fsGet (finalFS w) (model_name_on_hub ++ "/pytorch_model.bin") =
      some (w.storedModel checkpoint_path).weights ∧
    fsGet (finalFS w) (model_name_on_hub ++ "/README.md") = some model_card_content ∧
    (∃ tok, w.tokenizerLoad "distilbert-base-uncased" = Except.ok tok ∧
      fsGet (finalFS w) (model_name_on_hub ++ "/tokenizer_config.json") = some tok.config ∧
      uploadsOf (run w).1 =
        [Event.pushModel model_name_on_hub (w.storedModel checkpoint_path),
         Event.pushTokenizer model_name_on_hub tok,
         Event.repoPush model_name_on_hub "Add model card"]) := by
  obtain ⟨tok, hL, hP, hT, hr⟩ := run_none_eq w h
  have hfs := finalFS_none w tok hr
  refine ⟨rfl, rfl, ?_, ?_, tok, hT, ?_, ?_⟩
  · rw [hfs, fsGet_fsSet_other _ _ _ _ (by decide),
      fsGet_fsSet_other _ _ _ _ (by decide), fsGet_fsSet_same]
  · have e1 : model_card_filename = model_name_on_hub ++ "/README.md" := rfl
    rw [hfs, ← e1, fsGet_fsSet_same]
  · rw [hfs, fsGet_fsSet_other _ _ _ _ (by decide), fsGet_fsSet_same]
  · rw [hr]
    simp [uploadsOf, fullTrace, isUpload]

theorem C1_witness :
    fsGet (finalFS okWorld) (model_name_on_hub ++ "/README.md") = some model_card_content ∧
    fsGet (finalFS okWorld) (model_name_on_hub ++ "/pytorch_model.bin") =
      some (okWorld.storedModel checkpoint_path).weights := by
  have hh := C1_end_to_end_scenario okWorld rfl
  exact ⟨hh.2.2.2.1, hh.2.2.1⟩

/-- C2 as stated is false on the code: the literal section headers of the
template are "Model Description", ..., "Hardware " (with a trailing space),
not "Description", ..., "Hardware". -/
theorem C2_counterexample :
    readmeWrites (run okWorld).1 = [model_card_content] ∧
    sectionHeaders model_card_lines ≠
      ["Description", "Intended Use", "Limitations", "Hardware",
       "Software Optimizations", "Ethical Considerations", "More Information"] ∧
    "## Description" ∉ model_card_lines ∧
    "## Hardware" ∉ model_card_lines ∧
    "## Model Description" ∈ model_card_lines ∧
    "## Hardware " ∈ model_card_lines := by
  have h1 : readmeWrites (run okWorld).1 = [model_card_content] := by
    rw [show run okWorld =
      (fullTrace okWorld ⟨"distilbert-base-uncased"⟩, none) from rfl]
    exact readmeWrites_fullTrace okWorld ⟨"distilbert-base-uncased"⟩
  exact ⟨h1, by decide, by decide, by decide, by decide, by decide⟩

/-- C2 amended: the model card is written to `<model_name_on_hub>/README.md`
and its content exactly equals the fixed template, whose literal section
headers are Model Description, Intended Use, Limitations, Hardware (with a
trailing space in the heading line), Software Optimizations, Ethical
Considerations, More Information. -/
theorem C2_model_card_file (w : World) (h : (run w).2 = none) :
    model_card_filename = model_name_on_hub ++ "/README.md" ∧
    readmeWrites (run w).1 = [model_card_content] ∧
    fsGet (finalFS w) model_card_filename = some model_card_content ∧
    model_card_content = String.intercalate "\n" model_card_lines ∧
    sectionHeaders model_card_lines =
      ["Model Description", "Intended Use", "Limitations", "Hardware ",
       "Software Optimizations", "Ethical Considerations", "More Information"] := by
  obtain ⟨tok, hL, hP, hT, hr⟩ := run_none_eq w h
  refine ⟨rfl, ?_, ?_, rfl, by decide⟩
  · rw [hr]
    exact readmeWrites_fullTrace w tok
  · rw [finalFS_none w tok hr, fsGet_fsSet_same]

theorem C2_witness :
    fsGet (finalFS okWorld) model_card_filename = some model_card_content :=
  (C2_model_card_file okWorld rfl).2.2.1

/-- C3 as stated over every run is false on the code: a run that aborts at
the model load step (missing checkpoint directory) issues no upload call at
all, so the uploads are not issued exactly once in that run. -/
theorem C3_counterexample :
    (run missingCheckpointWorld).1 = [Event.login] ∧
    countKind (run missingCheckpointWorld).1 EKind.pushModel = 0 ∧
    countKind (run missingCheckpointWorld).1 EKind.pushTokenizer = 0 ∧
    countKind (run missingCheckpointWorld).1 EKind.repoPush = 0 := by
  decide

/-- C3 amended: in every run that completes, the three upload calls each
happen exactly once, in the order model, tokenizer, model card, and each one
only after the corresponding local save or write. -/
theorem C3_uploads_once_in_order (w : World) (h : (run w).2 = none) :
    countKind (run w).1 EKind.saveModel = 1 ∧
    countKind (run w).1 EKind.saveTokenizer = 1 ∧
    countKind (run w).1 EKind.writeFile = 1 ∧
    countKind (run w).1 EKind.pushModel = 1 ∧
    countKind (run w).1 EKind.pushTokenizer = 1 ∧
    countKind (run w).1 EKind.repoPush = 1 ∧
    idxKind (run w).1 EKind.pushModel < idxKind (run w).1 EKind.pushTokenizer ∧
    idxKind (run w).1 EKind.pushTokenizer < idxKind (run w).1 EKind.repoPush ∧
    idxKind (run w).1 EKind.saveModel < idxKind (run w).1 EKind.pushModel ∧
    idxKind (run w).1 EKind.saveTokenizer < idxKind (run w).1 EKind.pushTokenizer ∧
    idxKind (run w).1 EKind.writeFile < idxKind (run w).1 EKind.repoPush := by
  obtain ⟨tok, _, _, _, hr⟩ := run_none_eq w h
  rw [hr]
  simp [fullTrace, countKind, idxKind, Event.kind]

theorem C3_witness : countKind (run okWorld).1 EKind.pushModel = 1 ∧
    idxKind (run okWorld).1 EKind.saveModel < idxKind (run okWorld).1 EKind.pushModel := by
  have hh := C3_uploads_once_in_order okWorld rfl
  exact ⟨hh.2.2.2.1, hh.2.2.2.2.2.2.2.2.1⟩

/-- C4: when the checkpoint path does not exist, the model load raises and
the run stops right there: the only completed call is the login, and no
save, write, or upload call is ever made. -/
theorem C4_missing_checkpoint_fails_first (w : World)
    (hlogin : w.loginResult = Except.ok ())
    (hmiss : w.pathExists checkpoint_path = false) :
    run w = ([Event.login],
      some ("checkpoint path does not exist: " ++ checkpoint_path)) ∧
    AutoModelForSequenceClassification.from_pretrained w checkpoint_path =
      Except.error ("checkpoint path does not exist: " ++ checkpoint_path) ∧
    uploadsOf (run w).1 = [] ∧
    countKind (run w).1 EKind.saveModel = 0 ∧
    countKind (run w).1 EKind.saveTokenizer = 0 ∧
    countKind (run w).1 EKind.writeFile = 0 ∧
    countKind (run w).1 EKind.pushModel = 0 ∧
    countKind (run w).1 EKind.pushTokenizer = 0 ∧
    countKind (run w).1 EKind.repoPush = 0 := by
  have hrun : run w = ([Event.login],
      some ("checkpoint path does not exist: " ++ checkpoint_path)) := by
    simp [run, notebook_login, AutoModelForSequenceClassification.from_pretrained,
      hlogin, hmiss]
  rw [hrun]
  exact ⟨rfl, by simp [AutoModelForSequenceClassification.from_pretrained, hmiss],
    by decide, by decide, by decide, by decide, by decide, by decide, by decide⟩

theorem C4_witness :
    run missingCheckpointWorld = ([Event.login],
      some ("checkpoint path does not exist: " ++ checkpoint_path)) ∧
    countKind (run missingCheckpointWorld).1 EKind.pushTokenizer = 0 := by
  have hh := C4_missing_checkpoint_fails_first missingCheckpointWorld rfl rfl
  exact ⟨hh.1, hh.2.2.2.2.2.2.2.1⟩

/-- C5: the model is loaded from the checkpoint path and the tokenizer from
the fixed base identifier "distilbert-base-uncased" (a different
identifier), and both artifacts are then saved and pushed under the single
public name `model_name_on_hub`. -/
theorem C5_tokenizer_from_base_identifier (w : World) (h : (run w).2 = none) :
    Event.loadModel checkpoint_path ∈ (run w).1 ∧
    Event.loadTokenizer "distilbert-base-uncased" ∈ (run w).1 ∧
    (∀ p, Event.loadModel p ∈ (run w).1 → p = checkpoint_path) ∧
    (∀ i, Event.loadTokenizer i ∈ (run w).1 → i = "distilbert-base-uncased") ∧
    ("distilbert-base-uncased" : String) ≠ checkpoint_path ∧
    (∃ m, Event.saveModel model_name_on_hub m ∈ (run w).1 ∧
      Event.pushModel model_name_on_hub m ∈ (run w).1) ∧
    (∃ t, Event.saveTokenizer model_name_on_hub t ∈ (run w).1 ∧
      Event.pushTokenizer model_name_on_hub t ∈ (run w).1) := by
  obtain ⟨tok, hL, hP, hT, hr⟩ := run_none_eq w h
  rw [hr]
  refine ⟨by simp [fullTrace], by simp [fullTrace], ?_, ?_, by decide,
    ⟨w.storedModel checkpoint_path, by simp [fullTrace], by simp [fullTrace]⟩,
    ⟨tok, by simp [fullTrace], by simp [fullTrace]⟩⟩
  · intro p hp
    simp [fullTrace] at hp
    exact hp
  · intro i hi
    simp [fullTrace] at hi
    exact hi

theorem C5_witness :
    Event.loadTokenizer "distilbert-base-uncased" ∈ (run okWorld).1 ∧
    Event.loadModel checkpoint_path ∈ (run okWorld).1 := by
  have hh := C5_tokenizer_from_base_identifier okWorld rfl
  exact ⟨hh.2.1, hh.1⟩

/-- C6: the model artifact is passed through unchanged: whatever model value
the load step returned is exactly the value handed to the local save and to
the hub push. -/
theorem C6_model_passthrough (w : World) (m0 : AutoModelForSequenceClassification)
    (h0 : AutoModelForSequenceClassification.from_pretrained w checkpoint_path =
      Except.ok m0) :
    (∀ d m, Event.saveModel d m ∈ (run w).1 → m = m0) ∧
    (∀ d m, Event.pushModel d m ∈ (run w).1 → m = m0) := by
  obtain ⟨hm0, -⟩ := from_pretrained_ok w checkpoint_path m0 h0
  constructor
  · intro d m hm
    obtain ⟨tok, hmem⟩ := run_events_mem w _ hm
    simp [fullTrace] at hmem
    exact hmem.2.trans hm0.symm
  · intro d m hm
    obtain ⟨tok, hmem⟩ := run_events_mem w _ hm
    simp [fullTrace] at hmem
    exact hmem.2.trans hm0.symm

theorem C6_witness :
    ({ weights := "weights at ./results/checkpoint-2000" } :
      AutoModelForSequenceClassification) = okWorld.storedModel checkpoint_path :=
  (C6_model_passthrough okWorld (okWorld.storedModel checkpoint_path) rfl).1
    model_name_on_hub { weights := "weights at ./results/checkpoint-2000" } (by decide)

/-- C7: every model-card repository push in any run is a single commit on the
repository named `model_name_on_hub` with the fixed commit message
"Add model card", and a completed run performs it exactly once. -/
theorem C7_card_commit_message (w : World) :
    (∀ n msg, Event.repoPush n msg ∈ (run w).1 →
      n = model_name_on_hub ∧ msg = "Add model card") ∧
    ((run w).2 = none → countKind (run w).1 EKind.repoPush = 1) := by
  constructor
  · intro n msg hm
    obtain ⟨tok, hmem⟩ := run_events_mem w _ hm
    simp [fullTrace] at hmem
    exact hmem
  · intro h
    obtain ⟨tok, _, _, _, hr⟩ := run_none_eq w h
    rw [hr]
    simp [fullTrace, countKind, Event.kind]

theorem C7_witness :
    countKind (run okWorld).1 EKind.repoPush = 1 ∧
    ("desired-model-name" = model_name_on_hub ∧
      "Add model card" = "Add model card") :=
  ⟨(C7_card_commit_message okWorld).2 rfl,
   (C7_card_commit_message okWorld).1 "desired-model-name" "Add model card" (by decide)⟩

/-- C8: there is no local error handling: a failing run returns, verbatim,
the error raised by one of the ten external calls, and no call is ever
retried (each call site completes at most once in any run). -/
theorem C8_errors_propagate_uncaught (w : World) :
    (∀ e, (run w).2 = some e →
      w.loginResult = Except.error e ∨
      AutoModelForSequenceClassification.from_pretrained w checkpoint_path =
        Except.error e ∨
      w.tokenizerLoad "distilbert-base-uncased" = Except.error e ∨
      (∃ m, w.saveModelResult model_name_on_hub m = Except.error e) ∨
      (∃ t, w.saveTokenizerResult model_name_on_hub t = Except.error e) ∨
      (∃ m, w.pushModelResult model_name_on_hub m = Except.error e) ∨
      (∃ t, w.pushTokenizerResult model_name_on_hub t = Except.error e) ∨
      w.writeFileResult model_card_filename model_card_content = Except.error e ∨
      w.cloneResult model_name_on_hub model_name_on_hub = Except.error e ∨
      w.repoPushResult model_name_on_hub = Except.error e) ∧
    (∀ k, countKind (run w).1 k ≤ 1) := by
  constructor
  · intro e he
    rcases run_char w with ⟨e1, h1, hr⟩ | ⟨h1, h2, hr⟩ | ⟨e1, h1, h2, h3, hr⟩ |
      ⟨tok, e1, h1, h2, h3, h4, hr⟩ | ⟨tok, e1, h1, h2, h3, h4, hr⟩ |
      ⟨tok, e1, h1, h2, h3, h4, hr⟩ | ⟨tok, e1, h1, h2, h3, h4, hr⟩ |
      ⟨tok, e1, h1, h2, h3, h4, hr⟩ | ⟨tok, e1, h1, h2, h3, h4, hr⟩ |
      ⟨tok, e1, h1, h2, h3, h4, hr⟩ | ⟨tok, h1, h2, h3, hr⟩ <;>
      rw [hr] at he <;> simp at he
    · exact Or.inl (he ▸ h1)
    · refine Or.inr (Or.inl ?_)
      rw [← he]
      simp [AutoModelForSequenceClassification.from_pretrained, h2]
    · exact Or.inr (Or.inr (Or.inl (he ▸ h3)))
    · exact Or.inr (Or.inr (Or.inr (Or.inl ⟨w.storedModel checkpoint_path, he ▸ h4⟩)))
    · exact Or.inr (Or.inr (Or.inr (Or.inr (Or.inl ⟨tok, he ▸ h4⟩))))
    · exact Or.inr (Or.inr (Or.inr (Or.inr (Or.inr (Or.inl
        ⟨w.storedModel checkpoint_path, he ▸ h4⟩)))))
    · exact Or.inr (Or.inr (Or.inr (Or.inr (Or.inr (Or.inr (Or.inl ⟨tok, he ▸ h4⟩))))))
    · exact Or.inr (Or.inr (Or.inr (Or.inr (Or.inr (Or.inr (Or.inr (Or.inl
        (he ▸ h4))))))))
    · exact Or.inr (Or.inr (Or.inr (Or.inr (Or.inr (Or.inr (Or.inr (Or.inr (Or.inl
        (he ▸ h4)))))))))
    · exact Or.inr (Or.inr (Or.inr (Or.inr (Or.inr (Or.inr (Or.inr (Or.inr (Or.inr
        (he ▸ h4)))))))))
  · intro k
    rcases run_char w with ⟨e1, h1, hr⟩ | ⟨h1, h2, hr⟩ | ⟨e1, h1, h2, h3, hr⟩ |
      ⟨tok, e1, h1, h2, h3, h4, hr⟩ | ⟨tok, e1, h1, h2, h3, h4, hr⟩ |
      ⟨tok, e1, h1, h2, h3, h4, hr⟩ | ⟨tok, e1, h1, h2, h3, h4, hr⟩ |
      ⟨tok, e1, h1, h2, h3, h4, hr⟩ | ⟨tok, e1, h1, h2, h3, h4, hr⟩ |
      ⟨tok, e1, h1, h2, h3, h4, hr⟩ | ⟨tok, h1, h2, h3, hr⟩ <;>
      rw [hr] <;> cases k <;>
      simp [fullTrace, countKind, Event.kind]

theorem C8_witness :
    (missingCheckpointWorld.loginResult =
       Except.error ("checkpoint path does not exist: " ++ checkpoint_path) ∨
     AutoModelForSequenceClassification.from_pretrained missingCheckpointWorld
         checkpoint_path =
       Except.error ("checkpoint path does not exist: " ++ checkpoint_path) ∨
     missingCheckpointWorld.tokenizerLoad "distilbert-base-uncased" =
       Except.error ("checkpoint path does not exist: " ++ checkpoint_path) ∨
     (∃ m, missingCheckpointWorld.saveModelResult model_name_on_hub m =
       Except.error ("checkpoint path does not exist: " ++ checkpoint_path)) ∨
     (∃ t, missingCheckpointWorld.saveTokenizerResult model_name_on_hub t =
       Except.error ("checkpoint path does not exist: " ++ checkpoint_path)) ∨
     (∃ m, missingCheckpointWorld.pushModelResult model_name_on_hub m =
       Except.error ("checkpoint path does not exist: " ++ checkpoint_path)) ∨
     (∃ t, missingCheckpointWorld.pushTokenizerResult model_name_on_hub t =
       Except.error ("checkpoint path does not exist: " ++ checkpoint_path)) ∨
     missingCheckpointWorld.writeFileResult model_card_filename model_card_content =
       Except.error ("checkpoint path does not exist: " ++ checkpoint_path) ∨
     missingCheckpointWorld.cloneResult model_name_on_hub model_name_on_hub =
       Except.error ("checkpoint path does not exist: " ++ checkpoint_path) ∨
     missingCheckpointWorld.repoPushResult model_name_on_hub =
       Except.error ("checkpoint path does not exist: " ++ checkpoint_path)) ∧
    countKind (run missingCheckpointWorld).1 EKind.login ≤ 1 :=
  ⟨(C8_errors_propagate_uncaught missingCheckpointWorld).1
     ("checkpoint path does not exist: " ++ checkpoint_path) rfl,
   (C8_errors_propagate_uncaught missingCheckpointWorld).2 EKind.login⟩

/-- C9: the model-card write opens `<model_name_on_hub>/README.md` in
truncating write mode: afterwards that path holds exactly the template
content, whatever was there before, and every other path is untouched. -/
theorem C9_truncating_readme_write (fs : List (String × String)) :
    fsGet (fsApply fs (Event.writeFile model_card_filename model_card_content))
        model_card_filename = some model_card_content ∧
    (∀ q, q ≠ model_card_filename →
      fsGet (fsApply fs (Event.writeFile model_card_filename model_card_content)) q =
        fsGet fs q) := by
  constructor
  · simp [fsApply, fsGet_fsSet_same]
  · intro q hq
    simp only [fsApply]
    exact fsGet_fsSet_other fs model_card_filename model_card_content q hq

/-- A directory state preexisting the model-card write: the target README
already has other content and a sibling file sits next to it. -/
def preFS : List (String × String) :=
  [(model_card_filename, "old readme"), (model_name_on_hub ++ "/config.json", "cfg")]

theorem C9_witness :
    fsGet (fsApply preFS (Event.writeFile model_card_filename model_card_content))
        model_card_filename = some model_card_content ∧
    fsGet (fsApply preFS (Event.writeFile model_card_filename model_card_content))
        (model_name_on_hub ++ "/config.json") = some "cfg" := by
  refine ⟨(C9_truncating_readme_write preFS).1, ?_⟩
  rw [(C9_truncating_readme_write preFS).2 (model_name_on_hub ++ "/config.json")
    (by decide)]
  decide

/-- C10: the bytes written to the model-card file are one fixed constant,
independent of the world the run happens in: the contents written by any two
runs coincide. -/
theorem C10_card_bytes_run_independent (w1 w2 : World) (c1 c2 : String)
    (h1 : c1 ∈ readmeWrites (run w1).1) (h2 : c2 ∈ readmeWrites (run w2).1) :
    c1 = c2 :=
  (readmeWrites_const w1 c1 h1).trans (readmeWrites_const w2 c2 h2).symm

/-- A world whose checkpoint holds different weights and whose tokenizer
load returns a different tokenizer than `okWorld`. -/
def altWorld : World :=
  { okWorld with
    storedModel := fun _ => { weights := "retrained weights" },
    tokenizerLoad := fun _ => Except.ok { config := "custom vocab" } }

theorem C10_witness :
    model_card_content ∈ readmeWrites (run okWorld).1 ∧
    model_card_content ∈ readmeWrites (run altWorld).1 ∧
    model_card_content = model_card_content := by
  have h1 : readmeWrites (run okWorld).1 = [model_card_content] := by
    rw [show run okWorld =
      (fullTrace okWorld ⟨"distilbert-base-uncased"⟩, none) from rfl]
    exact readmeWrites_fullTrace okWorld ⟨"distilbert-base-uncased"⟩
  have h2 : readmeWrites (run altWorld).1 = [model_card_content] := by
    rw [show run altWorld =
      (fullTrace altWorld ⟨"custom vocab"⟩, none) from rfl]
    exact readmeWrites_fullTrace altWorld ⟨"custom vocab"⟩
  exact ⟨by rw [h1]; simp, by rw [h2]; simp,
    C10_card_bytes_run_independent okWorld altWorld model_card_content
      model_card_content (by rw [h1]; simp) (by rw [h2]; simp)⟩
